import Mathlib

/-!
Verification of the schema-driven CSV user-validation core of the
`users-ingestion` repository (`src/utils/validators.py` and
`src/utils/user_custom_validators.py`), shallowly embedded in Lean.

Modelling conventions:
* Cell values are Lean `String`s: the core receives already-parsed tabular
  data, and every value in the Python source is passed through `str(...)`
  before use.  A blank CSV cell surfaces as the string `"nan"` (pandas NaN
  under `str`), which the source handles textually.
* A record (pandas row) is a total function `String → String`; the Python
  code only reads columns it has checked to be present.
* Python dicts are association lists `List (String × String)`; key
  membership is `List.lookup`, `.values()` is `List.map Prod.snd`.
* Python exceptions (`KeyError` on a missing DataFrame column,
  `TypeError` from `re.fullmatch(None, _)`) are modelled with
  `Except String`.
* `str.strip` / `", ".join` / list `repr` are modelled by the executable
  functions `pyStrip` / `pyJoin` / `pyStrListRepr` below.
* The semantics of `re` and `datetime.strptime` on schema-supplied data
  are abstracted as the boolean parameter `PySem`: whether a pattern's
  source compiles (`patOk` — `re.fullmatch` raises an uncaught `re.error`
  otherwise, modelled as an `.error` result), whether a compiled pattern
  fully matches a string (`fullmatch`), and whether a string parses under
  a format (`strptime`).  The two fixed date formats `%d/%m/%Y` and
  `%d-%m-%Y`, and the fixed date regex of `validate_date_of_joining`, are
  modelled concretely (`strptimeDMY`, `dojPatternMatch`).
-/

/-- Python `str.strip()`: drop leading and trailing whitespace. -/
def pyStrip (s : String) : String :=
  String.mk (((s.data.dropWhile Char.isWhitespace).reverse.dropWhile
      Char.isWhitespace).reverse)

/-- Python `sep.join(l)`. -/
def pyJoin (sep : String) : List String → String
  | [] => ""
  | [x] => x
  | x :: y :: xs => x ++ sep ++ pyJoin sep (y :: xs)

/-- Split a character list at every occurrence of `sep` (empty pieces
kept), like Python `str.split` with a one-character separator. -/
def splitOnChar (sep : Char) : List Char → List (List Char)
  | [] => [[]]
  | c :: cs =>
    if c = sep then [] :: splitOnChar sep cs
    else
      match splitOnChar sep cs with
      | h :: t => (c :: h) :: t
      | [] => [[c]]

/-- Python `s.split(sep)` for a one-character separator. -/
def pySplit (sep : Char) (s : String) : List String :=
  (splitOnChar sep s.data).map String.mk

/-- Python `str.lower()` (ASCII case mapping, as used on "nan"/"NaN"). -/
def pyLower (s : String) : String := String.mk (s.data.map Char.toLower)

/-- Python `str.upper()` (ASCII case mapping). -/
def pyUpper (s : String) : String := String.mk (s.data.map Char.toUpper)

/-- A single-quote character, as a string. -/
def sQuote : String := String.singleton (Char.ofNat 39)

/-- Python `repr` of a list of strings, e.g. `['a', 'b']`
(strings shown with single quotes). -/
def pyStrListRepr (l : List String) : String :=
  "[" ++ pyJoin ", " (l.map (fun s => sQuote ++ s ++ sQuote)) ++ "]"

/-- The boundary-mismatch message, shared verbatim by
`validators.validate_boundary` and the hook
`user_custom_validators.validate_boundary`. -/
def boundaryMismatchMsg (area expected code : String) : String :=
  "administrative_area " ++ (sQuote ++ area ++ sQuote
    ++ " does not match boundary " ++ sQuote ++ expected ++ sQuote
    ++ " for code " ++ sQuote ++ code ++ sQuote)

/-- All characters are decimal digits (and the list is what the caller
length-checks separately). -/
def allDigits (l : List Char) : Bool := l.all Char.isDigit

/-- Numeric value of a digit string. -/
def digitsToNat (l : List Char) : Nat :=
  l.foldl (fun n c => n * 10 + (c.toNat - 48)) 0

/-- Gregorian leap year, as used by Python `datetime`. -/
def isLeap (y : Nat) : Bool :=
  (y % 4 == 0 && y % 100 != 0) || (y % 400 == 0)

/-- Days in a month of a year, as used by Python `datetime`. -/
def daysInMonth (y m : Nat) : Nat :=
  if m == 2 then (if isLeap y then 29 else 28)
  else if m == 4 || m == 6 || m == 9 || m == 11 then 30
  else 31

/-- Python `_strptime` field `%d`: one or two digits, value 1..31
(regex `3[01]|[12]\d|0[1-9]|[1-9]`). -/
def dayField (l : List Char) : Bool :=
  allDigits l && (l.length == 1 || l.length == 2)
    && 1 ≤ digitsToNat l && digitsToNat l ≤ 31

/-- Python `_strptime` field `%m`: one or two digits, value 1..12
(regex `1[0-2]|0[1-9]|[1-9]`). -/
def monthField (l : List Char) : Bool :=
  allDigits l && (l.length == 1 || l.length == 2)
    && 1 ≤ digitsToNat l && digitsToNat l ≤ 12

/-- Python `_strptime` field `%Y`: exactly four digits. -/
def yearField (l : List Char) : Bool :=
  allDigits l && l.length == 4

/-- `datetime.strptime(s, "%d" ++ sep ++ "%m" ++ sep ++ "%Y")` succeeding:
the string splits on `sep` into a day, month and four-digit-year field and
the triple is a real calendar date (`datetime` requires year ≥ 1 and
day ≤ days in the month). -/
def strptimeDMY (sep : Char) (s : String) : Bool :=
  match splitOnChar sep s.data with
  | [d, m, y] =>
    dayField d && monthField m && yearField y
      && 1 ≤ digitsToNat y
      && digitsToNat d ≤ daysInMonth (digitsToNat y) (digitsToNat m)
  | _ => false

/-- The fixed regex of `user_custom_validators.validate_date_of_joining`:
two day digits (01..31), a separator (slash or hyphen), two month digits
(01..12), a separator (slash or hyphen, chosen independently of the
first), and four year digits; a full match of the whole string. -/
def dojPatternMatch (s : String) : Bool :=
  match s.data with
  | [d1, d2, s1, m1, m2, s2, y1, y2, y3, y4] =>
    (s1 == '/' || s1 == '-') && (s2 == '/' || s2 == '-')
      && d1.isDigit && d2.isDigit && m1.isDigit && m2.isDigit
      && y1.isDigit && y2.isDigit && y3.isDigit && y4.isDigit
      && 1 ≤ digitsToNat [d1, d2] && digitsToNat [d1, d2] ≤ 31
      && 1 ≤ digitsToNat [m1, m2] && digitsToNat [m1, m2] ≤ 12
  | _ => false

/-- Opaque semantics of Python library calls on schema-supplied data:
`fullmatch pat s` is `re.fullmatch(pat, s)` matching (on a pattern the
regex compiler accepts), `strptime fmt s` is `datetime.strptime(s, fmt)`
succeeding, and `patOk pat` is `re.compile(pat)` succeeding —
`re.fullmatch` raises an uncaught `re.error` when the pattern's source is
invalid (e.g. `"("`), which `validate_field` models through `patOk`.
Which strings match which valid pattern stays opaque; no claim under
verification depends on it. -/
structure PySem where
  fullmatch : String → String → Bool
  strptime : String → String → Bool
  patOk : String → Bool

/-- A schema validation rule (`validation_rules[field]` in
`validators.py`); absent JSON keys are `none` / default values, matching
the source's `rule.get(...)` calls. -/
structure Rule where
  type : Option String := none
  pattern : Option String := none
  error_message : Option String := none
  allowed_values : List String := []
  required : Bool := false
  format : Option String := none
deriving DecidableEq

/-- A record: a total map from column name to (stringified) cell value. -/
abbrev Row : Type := String → String

/-- `row[key] = value` on a pandas row copy: pointwise functional update. -/
def updateRow (row : Row) (key value : String) : Row :=
  fun c => if c = key then value else row c

/-- The state of a constructed `CSVValidator`
(`src/utils/validators.py`): the parsed schema pieces and reference data.
`allowed_roles` is `set(self.roles_map.keys())`, `boundary_dict` the
id → name mapping built from the boundary CSV. -/
structure Validator where
  expected_cols : List String
  validation_rules : List (String × Rule)
  allowed_roles : List String
  boundary_dict : List (String × String)

/-- One output record of `validate_csv`: the (possibly updated) cell
values in column order, the verdict, and the accumulated error list
(serialised with `str(...)` into the final DataFrame by the source). -/
structure OutRow where
  data : List String
  status : String
  errors : List String
deriving DecidableEq

/-- The summary dict returned by `validate_csv`. -/
structure Summary where
  header_status : String
  header_message : String
  total_users : Nat
  correct_users : Nat
  error_users : Nat
deriving DecidableEq

namespace CSVValidator

/-- `CSVValidator.validate_headers` (`validators.py:50-72`).
`missing`/`extra` model `set(expected) - set(headers)` and its converse;
Python renders `list(set-difference)` in hash order, modelled here by a
deterministic deduplicated order (only the set of names is specified). -/
def validate_headers (expected_cols csv_headers : List String) :
    String × String :=
  let missing := (expected_cols.filter (fun c => !csv_headers.contains c)).dedup
  let extra := (csv_headers.filter (fun c => !expected_cols.contains c)).dedup
  if expected_cols = csv_headers then
    ("CORRECT", "Headers match. No issues.")
  else
    let msg :=
      (if !missing.isEmpty then
        "Missing columns: " ++ pyStrListRepr missing ++ ". " else "")
      ++ (if !extra.isEmpty then
        "Extra columns: " ++ pyStrListRepr extra ++ "." else "")
    ("ERROR", pyStrip msg)

/-- `CSVValidator.validate_field` (`validators.py:74-113`).
Returns `.error` where the Python raises uncaught: `TypeError` from
`re.fullmatch(None, _)` when a regex rule carries no pattern, and
`re.error` when it carries a pattern whose source the regex compiler
rejects; returns `.ok none` where the source returns `None`. -/
def validate_field (sem : PySem) (field_name : String) (value : String)
    (rule : Rule) : Except String (Option String) :=
  let value_str := pyStrip value
  if value_str = "" ∨ pyLower value_str = "nan" then
    if rule.required then .ok (some (field_name ++ " is required"))
    else .ok none
  else
    match rule.type with
    | some "regex" =>
      match rule.pattern with
      | none => .error "TypeError: re.fullmatch(None, _)"
      | some pat =>
        if !sem.patOk pat then .error "re.error: invalid pattern"
        else if sem.fullmatch pat value_str then .ok none
        else .ok (some (rule.error_message.getD ("Invalid " ++ field_name)))
    | some "enum" =>
      if (rule.allowed_values.map pyUpper).contains (pyUpper value_str) then
        .ok none
      else .ok (some (rule.error_message.getD ("Invalid " ++ field_name)))
    | some "date" =>
      if sem.strptime (rule.format.getD "%d/%m/%Y") value_str then .ok none
      else .ok (some (rule.error_message.getD
        ("Invalid date format for " ++ field_name)))
    | _ => .ok none

/-- `CSVValidator.validate_date_of_joining` (`validators.py:115-135`):
returns the corrected date and an optional error.  `today` is the ambient
`datetime.now().strftime("%d/%m/%Y")`, passed explicitly. -/
def validate_date_of_joining (today : String) (date_str : String) :
    String × Option String :=
  let d := pyStrip date_str
  if d = "" ∨ pyLower d = "nan" then (today, none)
  else if strptimeDMY '/' d then (d, none)
  else (today, some "date_of_joining must be in DD/MM/YYYY format")

/-- `CSVValidator.validate_roles` (`validators.py:137-153`). -/
def validate_roles (allowed_roles : List String) (role_string : String) :
    Option String :=
  if pyStrip role_string = "" then some "roles cannot be empty"
  else
    let user_roles := (pySplit ',' role_string).map pyStrip
    let errors := (user_roles.filter (fun r => !allowed_roles.contains r)).map
      (fun r => "Invalid role: " ++ r)
    if errors.isEmpty then none else some (pyJoin ", " errors)

/-- `CSVValidator.validate_boundary` (`validators.py:155-188`). -/
def validate_boundary (boundary_dict : List (String × String))
    (boundary_code administrative_area : String) : Option String :=
  let code := pyStrip boundary_code
  let area := pyStrip administrative_area
  let errors :=
    (if (boundary_dict.lookup code).isNone then
      ["Invalid boundary_code: " ++ code] else [])
    ++ (if !(boundary_dict.map Prod.snd).contains area then
      ["Invalid administrative_area: " ++ area] else [])
  if !errors.isEmpty then some (pyJoin ", " errors)
  else
    match boundary_dict.lookup code with
    | some expected_name =>
      if expected_name ≠ "" ∧ area ≠ expected_name then
        some (boundaryMismatchMsg area expected_name code)
      else none
    | none => none

/-- Python truthiness of `if err: error_list.append(err)`:
`None` and the empty string contribute nothing. -/
def appendErr : Option String → List String
  | none => []
  | some e => if e = "" then [] else [e]

/-- One iteration of the per-row rule loop of `validate_csv`
(`validators.py:227-267`): the `if validation_type ...` dispatch for a
single `(field_name, rule)` pair, on a field known to be present. -/
def processField (sem : PySem) (V : Validator) (today : String)
    (cols : List String) (dupMobiles : List String) (field_name : String)
    (rule : Rule) (row : Row) : Except String (List String × Row) :=
  if rule.type = some "regex" ∨ rule.type = some "enum" then
    match validate_field sem field_name (row field_name) rule with
    | .error e => .error e
    | .ok err => .ok (appendErr err, row)
  else if rule.type = some "date" ∧ field_name = "date_of_joining" then
    let (corrected_date, err) :=
      validate_date_of_joining today (row field_name)
    .ok (appendErr err, updateRow row "date_of_joining" corrected_date)
  else if rule.type = some "date" ∧ field_name = "date_of_birth" then
    match validate_field sem field_name (row field_name) rule with
    | .error e => .error e
    | .ok err => .ok (appendErr err, row)
  else if rule.type = some "custom" then
    if field_name = "roles" then
      .ok (appendErr (validate_roles V.allowed_roles (row field_name)), row)
    else if field_name = "mobile_number" then
      if dupMobiles.contains (pyStrip (row "mobile_number")) then
        .ok (["Duplicate mobile_number inside CSV"], row)
      else .ok ([], row)
    else if field_name = "boundary_code" ∨ field_name = "administrative_area" then
      if field_name = "boundary_code" ∧ cols.contains "administrative_area" then
        .ok (appendErr (validate_boundary V.boundary_dict
          (row "boundary_code") (row "administrative_area")), row)
      else .ok ([], row)
    else .ok ([], row)
  else .ok ([], row)

/-- The body of the per-row rule loop of `validate_csv`
(`validators.py:222-267`): folds over `validation_rules.items()` in order,
accumulating error strings and threading the row (which the
`date_of_joining` branch mutates). -/
def processRules (sem : PySem) (V : Validator) (today : String)
    (cols : List String) (dupMobiles : List String) :
    List (String × Rule) → Row → Except String (List String × Row)
  | [], row => .ok ([], row)
  | (field_name, rule) :: rest, row =>
    if !cols.contains field_name then
      processRules sem V today cols dupMobiles rest row
    else
      match processField sem V today cols dupMobiles field_name rule row with
      | .error e => .error e
      | .ok (errs, row') =>
        match processRules sem V today cols dupMobiles rest row' with
        | .error e => .error e
        | .ok (errs', row'') => .ok (errs ++ errs', row'')

/-- The row loop of `validate_csv` (`validators.py:219-280`): one output
record per input record, plus the CORRECT / ERROR counters. -/
def runRows (sem : PySem) (V : Validator) (today : String)
    (cols : List String) (dupMobiles : List String) :
    List Row → Except String (List OutRow × Nat × Nat)
  | [] => .ok ([], 0, 0)
  | row :: rest =>
    match processRules sem V today cols dupMobiles V.validation_rules row with
    | .error e => .error e
    | .ok (error_list, row') =>
      let status := if error_list.isEmpty then "CORRECT" else "ERROR"
      match runRows sem V today cols dupMobiles rest with
      | .error e => .error e
      | .ok (outs, c, e) =>
        .ok ({ data := cols.map row', status := status,
               errors := error_list } :: outs,
             (if error_list.isEmpty then c + 1 else c),
             (if error_list.isEmpty then e else e + 1))

/-- `CSVValidator.validate_csv` (`validators.py:190-294`) on an
already-parsed table (`cols`, `rows`).  Returns the output header list,
the output records and the summary; `.error` models the uncaught Python
exceptions (`df["mobile_number"]` raising `KeyError` when the column is
absent, and `validate_field`'s `TypeError`). -/
def validate_csv (sem : PySem) (V : Validator) (today : String)
    (cols : List String) (rows : List Row) :
    Except String (List String × List OutRow × Summary) :=
  let (header_status, header_message) := validate_headers V.expected_cols cols
  if !cols.contains "mobile_number" then
    .error "KeyError: mobile_number"
  else
    let ms := rows.map (fun r => r "mobile_number")
    let duplicate_mobiles := ms.filter (fun m => decide (1 < ms.count m))
    match runRows sem V today cols duplicate_mobiles rows with
    | .error e => .error e
    | .ok (outs, correct_count, error_count) =>
      .ok (cols ++ ["validation_status", "validation_errors"], outs,
        { header_status := header_status, header_message := header_message,
          total_users := rows.length, correct_users := correct_count,
          error_users := error_count })

end CSVValidator

/-- The reference-data dict handed to the custom hooks
(`reference_data` in `user_custom_validators.py`):
`reference_data.get("roles", {})` and `reference_data.get("boundaries", {})`. -/
structure RefData where
  roles : List (String × String) := []
  boundaries : List (String × String) := []

/-- A pandas row as seen by the hooks: `row.get(col, "")` can default. -/
abbrev HookRow : Type := String → Option String

namespace UserCustomValidators

/-- `user_custom_validators.validate_roles` (lines 11-38).
On string values `pd.isna` is false, so the `or pd.isna(value)` disjunct
is dropped. -/
def validate_roles (value : String) (_row : HookRow) (reference_data : RefData) :
    List String :=
  let roles_map := reference_data.roles
  if roles_map.isEmpty then []
  else if pyStrip value = "" then ["roles cannot be empty"]
  else
    let user_roles := (pySplit ',' value).map pyStrip
    let invalid_roles := user_roles.filter (fun r => (roles_map.lookup r).isNone)
    if invalid_roles.isEmpty then []
    else ["Invalid roles: " ++ pyJoin ", " invalid_roles]

/-- `user_custom_validators.validate_date_of_joining` (lines 41-74).
On string values `pd.isna` is false, so that disjunct is dropped. -/
def validate_date_of_joining (value : String) (_row : HookRow)
    (_reference_data : RefData) : List String :=
  let date_str := pyStrip value
  if date_str = "" ∨ pyLower date_str = "nan" then
    ["date_of_joining is required"]
  else if !dojPatternMatch date_str then
    ["date_of_joining must be in DD/MM/YYYY or DD-MM-YYYY format"]
  else if strptimeDMY '/' date_str then []
  else if strptimeDMY '-' date_str then []
  else ["Invalid date_of_joining"]

/-- `user_custom_validators.validate_boundary` (lines 77-112). -/
def validate_boundary (value : String) (row : HookRow)
    (reference_data : RefData) : List String :=
  let boundaries := reference_data.boundaries
  if boundaries.isEmpty then []
  else
    let boundary_code := pyStrip value
    let administrative_area := pyStrip ((row "administrative_area").getD "")
    let errors :=
      (if (boundaries.lookup boundary_code).isNone then
        ["Invalid boundary_code: " ++ boundary_code] else [])
      ++ (if !(boundaries.map Prod.snd).contains administrative_area then
        ["Invalid administrative_area: " ++ administrative_area] else [])
    if errors.isEmpty then
      match boundaries.lookup boundary_code with
      | some expected_name =>
        if expected_name ≠ "" ∧ administrative_area ≠ expected_name then
          [boundaryMismatchMsg administrative_area expected_name boundary_code]
        else []
      | none => []
    else errors

end UserCustomValidators

namespace CSVValidator

theorem status_iff (l : List String) :
    ((if l.isEmpty then "CORRECT" else "ERROR") = "ERROR" ↔ l ≠ []) ∧
    ((if l.isEmpty then "CORRECT" else "ERROR") = "CORRECT" ↔ l = []) := by
  cases l with
  | nil => refine ⟨by simp, by simp⟩
  | cons a t => refine ⟨by simp, by simp⟩

theorem runRows_status (sem : PySem) (V : Validator) (today : String)
    (cols dup : List String) (rows : List Row) :
    ∀ (outs : List OutRow) (c e : Nat),
      runRows sem V today cols dup rows = .ok (outs, c, e) →
      ∀ o ∈ outs, (o.status = "ERROR" ↔ o.errors ≠ []) ∧
        (o.status = "CORRECT" ↔ o.errors = []) := by
  induction rows with
  | nil =>
    intro outs c e h
    simp only [runRows, Except.ok.injEq, Prod.mk.injEq] at h
    obtain ⟨rfl, -, -⟩ := h
    intro o ho
    exact absurd ho (by simp)
  | cons row rest ih =>
    intro outs c e h
    simp only [runRows] at h
    cases hp : processRules sem V today cols dup V.validation_rules row with
    | error err => rw [hp] at h; simp at h
    | ok p =>
      obtain ⟨error_list, row'⟩ := p
      rw [hp] at h
      cases hr : runRows sem V today cols dup rest with
      | error err => rw [hr] at h; simp at h
      | ok q =>
        obtain ⟨outs', c', e'⟩ := q
        rw [hr] at h
        simp only [Except.ok.injEq, Prod.mk.injEq] at h
        obtain ⟨rfl, -, -⟩ := h
        intro o ho
        rcases List.mem_cons.mp ho with rfl | ho'
        · exact status_iff error_list
        · exact ih outs' c' e' hr o ho'

theorem runRows_counts (sem : PySem) (V : Validator) (today : String)
    (cols dup : List String) (rows : List Row) :
    ∀ (outs : List OutRow) (c e : Nat),
      runRows sem V today cols dup rows = .ok (outs, c, e) →
      c + e = rows.length ∧ outs.length = rows.length := by
  induction rows with
  | nil =>
    intro outs c e h
    simp only [runRows, Except.ok.injEq, Prod.mk.injEq] at h
    obtain ⟨rfl, rfl, rfl⟩ := h
    exact ⟨rfl, rfl⟩
  | cons row rest ih =>
    intro outs c e h
    simp only [runRows] at h
    cases hp : processRules sem V today cols dup V.validation_rules row with
    | error err => rw [hp] at h; simp at h
    | ok p =>
      obtain ⟨error_list, row'⟩ := p
      rw [hp] at h
      cases hr : runRows sem V today cols dup rest with
      | error err => rw [hr] at h; simp at h
      | ok q =>
        obtain ⟨outs', c', e'⟩ := q
        rw [hr] at h
        simp only [Except.ok.injEq, Prod.mk.injEq] at h
        obtain ⟨rfl, rfl, rfl⟩ := h
        obtain ⟨ihc, ihl⟩ := ih outs' c' e' hr
        constructor
        · cases hE : error_list.isEmpty <;> simp [hE] <;> omega
        · simp [ihl]

/-- C1: for every input table and every record in the output of
`validate_csv`, the record's `validation_status` is `"ERROR"` iff its
`validation_errors` list is non-empty, and `"CORRECT"` iff that list is
empty. -/
theorem validate_csv_status_iff_errors (sem : PySem) (V : Validator)
    (today : String) (cols : List String) (rows : List Row)
    (hdrs : List String) (outs : List OutRow) (s : Summary)
    (h : validate_csv sem V today cols rows = .ok (hdrs, outs, s)) :
    ∀ o ∈ outs, (o.status = "ERROR" ↔ o.errors ≠ []) ∧
      (o.status = "CORRECT" ↔ o.errors = []) := by
  simp only [validate_csv] at h
  cases hb : (!cols.contains "mobile_number") with
  | true => rw [hb] at h; simp at h
  | false =>
    rw [hb] at h
    simp only [Bool.false_eq_true, if_false] at h
    cases hr : runRows sem V today cols
        ((rows.map (fun r => r "mobile_number")).filter
          (fun m => decide (1 < (rows.map (fun r => r "mobile_number")).count m)))
        rows with
    | error err => rw [hr] at h; simp at h
    | ok q =>
      obtain ⟨outs', c', e'⟩ := q
      rw [hr] at h
      simp only [Except.ok.injEq, Prod.mk.injEq] at h
      obtain ⟨-, rfl, -⟩ := h
      exact runRows_status sem V today cols _ rows outs' c' e' hr

/-- C1 witness: a one-record run evaluated concretely. -/
theorem validate_csv_status_iff_errors_witness :
    ((OutRow.mk ["5"] "CORRECT" []).status = "ERROR" ↔
      (OutRow.mk ["5"] "CORRECT" []).errors ≠ []) ∧
    ((OutRow.mk ["5"] "CORRECT" []).status = "CORRECT" ↔
      (OutRow.mk ["5"] "CORRECT" []).errors = []) :=
  validate_csv_status_iff_errors ⟨fun _ _ => false, fun _ _ => false, fun _ => true⟩
    ⟨["mobile_number"], [], [], []⟩ "01/01/2030" ["mobile_number"]
    [fun _ => "5"]
    ["mobile_number", "validation_status", "validation_errors"]
    [OutRow.mk ["5"] "CORRECT" []]
    ⟨"CORRECT", "Headers match. No issues.", 1, 1, 0⟩
    (by rfl)
    (OutRow.mk ["5"] "CORRECT" []) (by simp)

/-- C2: for every run of `validate_csv`, the returned summary satisfies
`correct_users + error_users = total_users` and `total_users` is the
number of input records. -/
theorem validate_csv_counts (sem : PySem) (V : Validator)
    (today : String) (cols : List String) (rows : List Row)
    (hdrs : List String) (outs : List OutRow) (s : Summary)
    (h : validate_csv sem V today cols rows = .ok (hdrs, outs, s)) :
    s.correct_users + s.error_users = s.total_users ∧
      s.total_users = rows.length := by
  simp only [validate_csv] at h
  cases hb : (!cols.contains "mobile_number") with
  | true => rw [hb] at h; simp at h
  | false =>
    rw [hb] at h
    simp only [Bool.false_eq_true, if_false] at h
    cases hr : runRows sem V today cols
        ((rows.map (fun r => r "mobile_number")).filter
          (fun m => decide (1 < (rows.map (fun r => r "mobile_number")).count m)))
        rows with
    | error err => rw [hr] at h; simp at h
    | ok q =>
      obtain ⟨outs', c', e'⟩ := q
      rw [hr] at h
      simp only [Except.ok.injEq, Prod.mk.injEq] at h
      obtain ⟨-, -, rfl⟩ := h
      obtain ⟨hce, -⟩ := runRows_counts sem V today cols _ rows outs' c' e' hr
      exact ⟨hce, rfl⟩

/-- C2 witness: a two-record run evaluated concretely. -/
theorem validate_csv_counts_witness :
    (Summary.mk "CORRECT" "Headers match. No issues." 2 2 0).correct_users +
      (Summary.mk "CORRECT" "Headers match. No issues." 2 2 0).error_users =
      (Summary.mk "CORRECT" "Headers match. No issues." 2 2 0).total_users ∧
    (Summary.mk "CORRECT" "Headers match. No issues." 2 2 0).total_users = 2 := by
  have h := validate_csv_counts ⟨fun _ _ => false, fun _ _ => false, fun _ => true⟩
    ⟨["mobile_number"], [], [], []⟩ "01/01/2030" ["mobile_number"]
    [fun _ => "5", fun _ => "6"]
    ["mobile_number", "validation_status", "validation_errors"]
    [OutRow.mk ["5"] "CORRECT" [], OutRow.mk ["6"] "CORRECT" []]
    ⟨"CORRECT", "Headers match. No issues.", 2, 2, 0⟩
    (by rfl)
  exact h

end CSVValidator

theorem pyStrip_of_nonWs_ends (s : String) (c₁ c₂ : Char) (t₁ t₂ : List Char)
    (h1 : s.data = c₁ :: t₁) (w1 : c₁.isWhitespace = false)
    (h2 : s.data.reverse = c₂ :: t₂) (w2 : c₂.isWhitespace = false) :
    pyStrip s = s := by
  have hd : s.data.dropWhile Char.isWhitespace = s.data := by
    rw [h1]; simp [List.dropWhile_cons, w1]
  have hr : s.data.reverse.dropWhile Char.isWhitespace = s.data.reverse := by
    rw [h2]; simp [List.dropWhile_cons, w2]
  unfold pyStrip
  rw [hd, hr, List.reverse_reverse]

theorem pyStrip_trailing_space (s : String) (c₁ c₂ : Char) (t₁ t₂ : List Char)
    (h1 : s.data = c₁ :: t₁) (w1 : c₁.isWhitespace = false)
    (h2 : s.data.reverse = c₂ :: t₂) (w2 : c₂.isWhitespace = false) :
    pyStrip (s ++ " ") = s := by
  unfold pyStrip
  have hd : (s ++ " ").data = s.data ++ [' '] := by rw [String.data_append]
  rw [hd, h1]
  have hstep : List.dropWhile Char.isWhitespace ((c₁ :: t₁) ++ [' '])
      = c₁ :: (t₁ ++ [' ']) := by simp [List.dropWhile_cons, w1]
  rw [hstep]
  have hrev : (c₁ :: (t₁ ++ [' '])).reverse = ' ' :: (c₂ :: t₂) := by
    have : c₁ :: (t₁ ++ [' ']) = (c₁ :: t₁) ++ [' '] := by simp
    rw [this, List.reverse_append, ← h1, h2]; rfl
  rw [hrev]
  have hstep2 : List.dropWhile Char.isWhitespace (' ' :: (c₂ :: t₂))
      = c₂ :: t₂ := by simp [List.dropWhile_cons, w2]
  rw [hstep2, ← h2, List.reverse_reverse]

theorem infix_pyJoin (sep : String) (l : List String) (c : String)
    (hc : c ∈ l) : c.data <:+: (pyJoin sep l).data := by
  induction l with
  | nil => cases hc
  | cons x xs ih =>
    cases xs with
    | nil =>
      rw [List.mem_singleton.mp hc]
      exact List.infix_refl _
    | cons y ys =>
      rcases List.mem_cons.mp hc with rfl | h'
      · show c.data <:+: ((c ++ sep) ++ pyJoin sep (y :: ys)).data
        rw [String.data_append, String.data_append, List.append_assoc]
        exact (List.prefix_append c.data _).isInfix
      · have h := ih h'
        show c.data <:+: ((x ++ sep) ++ pyJoin sep (y :: ys)).data
        rw [String.data_append]
        exact h.trans (List.suffix_append _ _).isInfix

theorem infix_pyStrListRepr (l : List String) (c : String) (hc : c ∈ l) :
    c.data <:+: (pyStrListRepr l).data := by
  have h1 : (sQuote ++ c ++ sQuote) ∈ l.map (fun s => sQuote ++ s ++ sQuote) :=
    List.mem_map_of_mem _ hc
  have h2 := infix_pyJoin ", " _ _ h1
  have h3 : c.data <:+: (sQuote ++ c ++ sQuote).data := by
    rw [String.data_append, String.data_append]
    exact List.infix_append _ _ _
  have h4 := h3.trans h2
  unfold pyStrListRepr
  rw [String.data_append, String.data_append]
  exact (h4.trans (List.suffix_append _ _).isInfix).trans
    (List.prefix_append _ _).isInfix

theorem infix_extend_right (c A B : String) (h : c.data <:+: A.data) :
    c.data <:+: (A ++ B).data := by
  rw [String.data_append]
  exact h.trans (List.prefix_append _ _).isInfix

theorem infix_extend_left (c A B : String) (h : c.data <:+: B.data) :
    c.data <:+: (A ++ B).data := by
  rw [String.data_append]
  exact h.trans (List.suffix_append _ _).isInfix

theorem data_missing_head (R : String) :
    (("Missing columns: " ++ R) ++ ".").data
      = 'M' :: ("issing columns: ".data ++ R.data ++ ['.']) := by
  rw [String.data_append, String.data_append]
  show ('M' :: "issing columns: ".data ++ R.data) ++ ['.'] = _
  simp

theorem data_dot_tail (X : String) :
    ((X ++ ".").data).reverse = '.' :: X.data.reverse := by
  rw [String.data_append]; simp

theorem append_dot_space (X : String) : (X ++ ".") ++ " " = X ++ ". " := by
  have h : ("." ++ " " : String) = ". " := rfl
  rw [String.append_assoc, h]

theorem stripped_missing_only (R : String) :
    pyStrip ("Missing columns: " ++ R ++ ". ")
      = ("Missing columns: " ++ R) ++ "." := by
  rw [← append_dot_space ("Missing columns: " ++ R)]
  exact pyStrip_trailing_space _ 'M' '.' _ _ (data_missing_head R) (by decide)
    (data_dot_tail _) (by decide)

theorem data_extra_head (R : String) :
    (("Extra columns: " ++ R) ++ ".").data
      = 'E' :: ("xtra columns: ".data ++ R.data ++ ['.']) := by
  rw [String.data_append, String.data_append]
  show ('E' :: "xtra columns: ".data ++ R.data) ++ ['.'] = _
  simp

theorem stripped_extra_only (R : String) :
    pyStrip ("Extra columns: " ++ R ++ ".")
      = "Extra columns: " ++ R ++ "." := by
  exact pyStrip_of_nonWs_ends _ 'E' '.' _ _ (data_extra_head R) (by decide)
    (data_dot_tail _) (by decide)

theorem stripped_both (R R2 : String) :
    pyStrip (("Missing columns: " ++ R ++ ". ")
        ++ ("Extra columns: " ++ R2 ++ "."))
      = ("Missing columns: " ++ R ++ ". ")
        ++ ("Extra columns: " ++ R2 ++ ".") := by
  apply pyStrip_of_nonWs_ends _ 'M' '.'
    ("issing columns: ".data ++ R.data ++ ". ".data
      ++ ("Extra columns: " ++ R2 ++ ".").data)
    ((("Missing columns: " ++ R ++ ". ") ++ ("Extra columns: " ++ R2)).data.reverse)
  · rw [String.data_append, String.data_append, String.data_append]
    show (('M' :: "issing columns: ".data ++ R.data) ++ ". ".data) ++ _ = _
    simp
  · decide
  · have hres : ("Missing columns: " ++ R ++ ". ") ++ ("Extra columns: " ++ R2 ++ ".")
        = (("Missing columns: " ++ R ++ ". ") ++ ("Extra columns: " ++ R2)) ++ "." := by
      simp [String.append_assoc]
    rw [hres, data_dot_tail]
  · decide

namespace CSVValidator

/-- C3 counterexample: a mere permutation of the expected columns has an
equal column set, yet `validate_headers` returns `"ERROR"` — and with an
empty message, naming nothing. -/
theorem validate_headers_permutation_is_error :
    validate_headers ["a", "b"] ["b", "a"] = ("ERROR", "") ∧
    List.Perm ["a", "b"] ["b", "a"] := by
  constructor
  · rfl
  · decide

/-- C3 amended: `validate_headers` returns status `"CORRECT"` exactly when
the table's column list equals the schema's expected column list
(order-sensitive list equality, not set equality); whenever a column is
missing or extra the status is `"ERROR"` and the message names it (the
column name occurs in the message). -/
theorem validate_headers_list_equality (expected_cols csv_headers : List String) :
    ((validate_headers expected_cols csv_headers).1 = "CORRECT" ↔
      expected_cols = csv_headers) ∧
    (∀ c ∈ expected_cols, c ∉ csv_headers →
      (validate_headers expected_cols csv_headers).1 = "ERROR" ∧
      c.data <:+: (validate_headers expected_cols csv_headers).2.data) ∧
    (∀ c ∈ csv_headers, c ∉ expected_cols →
      (validate_headers expected_cols csv_headers).1 = "ERROR" ∧
      c.data <:+: (validate_headers expected_cols csv_headers).2.data) := by
  by_cases heq : expected_cols = csv_headers
  · subst heq
    refine ⟨by simp [validate_headers], ?_, ?_⟩ <;>
      exact fun c hc hn => absurd hc hn
  · have hstat : (validate_headers expected_cols csv_headers).1 = "ERROR" := by
      simp [validate_headers, heq]
    have hvh : validate_headers expected_cols csv_headers = ("ERROR",
        pyStrip ((if !((expected_cols.filter
            (fun c => !csv_headers.contains c)).dedup).isEmpty then
          "Missing columns: " ++ pyStrListRepr
            ((expected_cols.filter (fun c => !csv_headers.contains c)).dedup)
            ++ ". " else "")
        ++ (if !((csv_headers.filter
            (fun c => !expected_cols.contains c)).dedup).isEmpty then
          "Extra columns: " ++ pyStrListRepr
            ((csv_headers.filter (fun c => !expected_cols.contains c)).dedup)
            ++ "." else ""))) := by
      simp only [validate_headers]
      rw [if_neg heq]
    refine ⟨by rw [hstat]; exact iff_of_false (by decide) heq, ?_, ?_⟩
    · intro c hc hn
      refine ⟨hstat, ?_⟩
      have hm : c ∈ (expected_cols.filter (fun c => !csv_headers.contains c)).dedup :=
        List.mem_dedup.mpr (List.mem_filter.mpr ⟨hc, by simp [hn]⟩)
      have hmE : ((expected_cols.filter (fun c => !csv_headers.contains c)).dedup).isEmpty
          = false := List.isEmpty_eq_false.mpr (List.ne_nil_of_mem hm)
      have hcR := infix_pyStrListRepr _ c hm
      rw [hvh]
      cases hxE : ((csv_headers.filter
          (fun c => !expected_cols.contains c)).dedup).isEmpty with
      | true =>
        simp only [hmE, hxE]
        simp only [Bool.not_false, Bool.not_true, Bool.false_eq_true, if_true,
          if_false, String.append_empty]
        rw [stripped_missing_only]
        exact infix_extend_right _ _ _ (infix_extend_left _ _ _ hcR)
      | false =>
        simp only [hmE, hxE]
        simp only [Bool.not_false, if_true]
        rw [stripped_both]
        exact infix_extend_right _ _ _
          (infix_extend_right _ _ _ (infix_extend_left _ _ _ hcR))
    · intro c hc hn
      refine ⟨hstat, ?_⟩
      have hx : c ∈ (csv_headers.filter (fun c => !expected_cols.contains c)).dedup :=
        List.mem_dedup.mpr (List.mem_filter.mpr ⟨hc, by simp [hn]⟩)
      have hxE : ((csv_headers.filter (fun c => !expected_cols.contains c)).dedup).isEmpty
          = false := List.isEmpty_eq_false.mpr (List.ne_nil_of_mem hx)
      have hcR := infix_pyStrListRepr _ c hx
      rw [hvh]
      cases hmE : ((expected_cols.filter
          (fun c => !csv_headers.contains c)).dedup).isEmpty with
      | true =>
        simp only [hmE, hxE]
        simp only [Bool.not_false, Bool.not_true, Bool.false_eq_true, if_true,
          if_false, String.empty_append]
        rw [stripped_extra_only]
        exact infix_extend_right _ _ _ (infix_extend_left _ _ _ hcR)
      | false =>
        simp only [hmE, hxE]
        simp only [Bool.not_false, if_true]
        rw [stripped_both]
        exact infix_extend_left _ _ _
          (infix_extend_right _ _ _ (infix_extend_left _ _ _ hcR))

/-- C3 witness: a header set with one missing and one extra column,
evaluated concretely. -/
theorem validate_headers_list_equality_witness :
    ((validate_headers ["a"] ["x"]).1 = "CORRECT" ↔ (["a"] : List String) = ["x"]) ∧
    ((validate_headers ["a"] ["x"]).1 = "ERROR" ∧
      ("a" : String).data <:+: (validate_headers ["a"] ["x"]).2.data) ∧
    ((validate_headers ["a"] ["x"]).1 = "ERROR" ∧
      ("x" : String).data <:+: (validate_headers ["a"] ["x"]).2.data) := by
  obtain ⟨h1, h2, h3⟩ := validate_headers_list_equality ["a"] ["x"]
  exact ⟨h1, h2 "a" (by decide) (by decide), h3 "x" (by decide) (by decide)⟩

end CSVValidator

theorem append_ne_append_of_head_ne (a b x y : String) (ca cb : Char)
    (ta tb : List Char) (ha : a.data = ca :: ta) (hb : b.data = cb :: tb)
    (hne : ca ≠ cb) : a ++ x ≠ b ++ y := by
  intro h
  have hd := congrArg String.data h
  rw [String.data_append, String.data_append, ha, hb, List.cons_append,
    List.cons_append, List.cons.injEq] at hd
  exact hne hd.1

theorem mismatch_ne_code_msg (area n code c : String) :
    boundaryMismatchMsg area n code ≠ "Invalid boundary_code: " ++ c := by
  unfold boundaryMismatchMsg
  exact append_ne_append_of_head_ne _ _ _ _ 'a' 'I' _ _ rfl rfl (by decide)

theorem mismatch_ne_area_msg (area n code c : String) :
    boundaryMismatchMsg area n code ≠ "Invalid administrative_area: " ++ c := by
  unfold boundaryMismatchMsg
  exact append_ne_append_of_head_ne _ _ _ _ 'a' 'I' _ _ rfl rfl (by decide)

namespace UserCustomValidators

/-- C6: for a non-empty roles value checked against a non-empty role
mapping, every comma-separated trimmed token absent from the mapping's
keys lands in the invalid-token list, and whenever that list is non-empty
the hook returns the single combined message
`"Invalid roles: <comma-joined invalid tokens>"`; in particular
`"SUPERVISOR, FOO"` against a mapping holding only key `"SUPERVISOR"`
yields exactly `["Invalid roles: FOO"]`. -/
theorem validate_roles_combined_message (value : String) (row : HookRow)
    (rd : RefData) (hmap : rd.roles ≠ []) (hval : pyStrip value ≠ "") :
    (∀ r ∈ (pySplit ',' value).map pyStrip, (rd.roles.lookup r).isNone = true →
      r ∈ ((pySplit ',' value).map pyStrip).filter
        (fun r => (rd.roles.lookup r).isNone)) ∧
    (((pySplit ',' value).map pyStrip).filter
        (fun r => (rd.roles.lookup r).isNone) ≠ [] →
      validate_roles value row rd = ["Invalid roles: " ++ pyJoin ", "
        (((pySplit ',' value).map pyStrip).filter
          (fun r => (rd.roles.lookup r).isNone))]) ∧
    validate_roles "SUPERVISOR, FOO" row ⟨[("SUPERVISOR", "1")], []⟩
      = ["Invalid roles: FOO"] := by
  refine ⟨?_, ?_, by rfl⟩
  · intro r hr hN
    exact List.mem_filter.mpr ⟨hr, hN⟩
  · intro hne
    have hE : rd.roles.isEmpty = false := List.isEmpty_eq_false.mpr hmap
    have hfE : (((pySplit ',' value).map pyStrip).filter
        (fun r => (rd.roles.lookup r).isNone)).isEmpty = false :=
      List.isEmpty_eq_false.mpr hne
    simp [validate_roles, hE, hval, hfE]

/-- C6 witness: the single token `"A"` against a mapping with only key
`"B"`, evaluated concretely. -/
theorem validate_roles_combined_message_witness :
    validate_roles "A" (fun _ => none) ⟨[("B", "1")], []⟩
      = ["Invalid roles: " ++ pyJoin ", "
          (((pySplit ',' "A").map pyStrip).filter
            (fun r => (([("B", "1")] : List (String × String)).lookup r).isNone))] :=
  (validate_roles_combined_message "A" (fun _ => none) ⟨[("B", "1")], []⟩
    (by decide) (by decide)).2.1 (by decide)

/-- C7 counterexample: with boundary mapping `{"1": "", "2": "X"}`,
code `"1"` and area `"X"`, both individual checks pass and the mapping's
name for the code (`""`) differs from the given area, yet no mismatch
error is emitted (the source's `if expected_name` truthiness test
suppresses it for the falsy empty-string name). -/
theorem validate_boundary_empty_name_counterexample :
    validate_boundary "1" (fun _ => some "X") ⟨[], [("1", ""), ("2", "X")]⟩ = [] ∧
    (([("1", ""), ("2", "X")] : List (String × String)).lookup (pyStrip "1")
      = some "") ∧
    pyStrip "X" ∈ ([("1", ""), ("2", "X")] : List (String × String)).map Prod.snd ∧
    ("" : String) ≠ pyStrip "X" := by
  refine ⟨rfl, rfl, by decide, by decide⟩

/-- C7 amended: with a non-empty boundary mapping, the hook emits
`"Invalid boundary_code: <code>"` whenever the trimmed code is not a key,
emits `"Invalid administrative_area: <area>"` whenever the trimmed area is
not among the mapping's values (and both can fire on one call, as the
concrete conjunct shows); the mismatch error is emitted exactly when both
individual checks pass, the mapping's name for the code is non-empty, and
that name differs from the given area. -/
theorem validate_boundary_amended (value : String) (row : HookRow)
    (rd : RefData) (hmap : rd.boundaries ≠ []) :
    ((rd.boundaries.lookup (pyStrip value)).isNone = true →
      ("Invalid boundary_code: " ++ pyStrip value) ∈
        validate_boundary value row rd) ∧
    (pyStrip ((row "administrative_area").getD "") ∉ rd.boundaries.map Prod.snd →
      ("Invalid administrative_area: " ++
          pyStrip ((row "administrative_area").getD "")) ∈
        validate_boundary value row rd) ∧
    (∀ n, rd.boundaries.lookup (pyStrip value) = some n →
      (boundaryMismatchMsg (pyStrip ((row "administrative_area").getD "")) n
          (pyStrip value) ∈ validate_boundary value row rd ↔
        (n ≠ "" ∧
          pyStrip ((row "administrative_area").getD "") ∈
            rd.boundaries.map Prod.snd ∧
          pyStrip ((row "administrative_area").getD "") ≠ n))) ∧
    validate_boundary "99" (fun _ => some "X") ⟨[], [("1", "North")]⟩
      = ["Invalid boundary_code: 99", "Invalid administrative_area: X"] := by
  have hE : rd.boundaries.isEmpty = false := List.isEmpty_eq_false.mpr hmap
  refine ⟨?_, ?_, ?_, by rfl⟩
  · intro hN
    simp [validate_boundary, hE, hN]
  · intro hA
    have hA' : (rd.boundaries.map Prod.snd).contains
        (pyStrip ((row "administrative_area").getD "")) = false := by
      simpa using hA
    by_cases hN : (rd.boundaries.lookup (pyStrip value)).isNone = true
    · have hres : validate_boundary value row rd =
          ["Invalid boundary_code: " ++ pyStrip value,
           "Invalid administrative_area: " ++
             pyStrip ((row "administrative_area").getD "")] := by
        simp only [validate_boundary]
        rw [hE, hN, hA']
        simp
      rw [hres]
      simp
    · have hN' : (rd.boundaries.lookup (pyStrip value)).isNone = false := by
        simpa using hN
      have hres : validate_boundary value row rd =
          ["Invalid administrative_area: " ++
             pyStrip ((row "administrative_area").getD "")] := by
        simp only [validate_boundary]
        rw [hE, hN', hA']
        simp
      rw [hres]
      simp
  · intro n hn
    have hN : (rd.boundaries.lookup (pyStrip value)).isNone = false := by
      simp [hn]
    by_cases hA : pyStrip ((row "administrative_area").getD "") ∈
        rd.boundaries.map Prod.snd
    · have hA' : (rd.boundaries.map Prod.snd).contains
          (pyStrip ((row "administrative_area").getD "")) = true := by
        simpa using hA
      have hres : validate_boundary value row rd =
          (if n ≠ "" ∧ pyStrip ((row "administrative_area").getD "") ≠ n then
            [boundaryMismatchMsg (pyStrip ((row "administrative_area").getD ""))
              n (pyStrip value)]
          else []) := by
        simp only [validate_boundary]
        rw [hE, hN, hA', hn]
        simp
      rw [hres]
      by_cases h3 : n = ""
      · simp [h3]
      · by_cases h4 : pyStrip ((row "administrative_area").getD "") = n
        · simp [h3, h4]
        · simp [h3, h4, hA]
    · have hA' : (rd.boundaries.map Prod.snd).contains
          (pyStrip ((row "administrative_area").getD "")) = false := by
        simpa using hA
      have hres : validate_boundary value row rd =
          ["Invalid administrative_area: " ++
             pyStrip ((row "administrative_area").getD "")] := by
        simp only [validate_boundary]
        rw [hE, hN, hA']
        simp
      rw [hres]
      constructor
      · intro hmem
        rcases List.mem_singleton.mp hmem with h
        exact absurd h (mismatch_ne_area_msg _ _ _ _)
      · intro hcond
        exact absurd hcond.2.1 hA

/-- C7 witness: a code absent from a concrete non-empty mapping, via the
amended theorem. -/
theorem validate_boundary_amended_witness :
    ("Invalid boundary_code: " ++ pyStrip "9") ∈
      validate_boundary "9" (fun _ => some "X") ⟨[], [("1", "North")]⟩ :=
  (validate_boundary_amended "9" (fun _ => some "X") ⟨[], [("1", "North")]⟩
    (by decide)).1 (by rfl)

end UserCustomValidators

/-- C5 (code bug): on a record whose `date_of_joining` is empty, the table
run of `validate_csv` emits NO error at all — the record is classified
CORRECT and the empty value is silently replaced with today's date —
whereas the repository's own strict hook
`user_custom_validators.validate_date_of_joining` (registered for this
field by `utils.create_user_validator`) returns exactly
`["date_of_joining is required"]`. -/
theorem date_of_joining_required_code_bug :
    CSVValidator.validate_csv ⟨fun _ _ => false, fun _ _ => false, fun _ => true⟩
      ⟨["mobile_number", "date_of_joining"],
        [("date_of_joining", { type := some "date" })], [], []⟩
      "01/01/2030" ["mobile_number", "date_of_joining"]
      [fun c => if c = "date_of_joining" then "" else "7"]
      = .ok (["mobile_number", "date_of_joining", "validation_status",
              "validation_errors"],
             [⟨["7", "01/01/2030"], "CORRECT", []⟩],
             ⟨"CORRECT", "Headers match. No issues.", 1, 1, 0⟩) ∧
    UserCustomValidators.validate_date_of_joining "" (fun _ => none) ⟨[], []⟩
      = ["date_of_joining is required"] :=
  ⟨rfl, rfl⟩

namespace CSVValidator

theorem processField_preserves (sem : PySem) (V : Validator) (today : String)
    (cols dup : List String) (f : String) (rule : Rule) (row : Row)
    (errs : List String) (row' : Row)
    (h : processField sem V today cols dup f rule row = .ok (errs, row'))
    (k : String) (hk : k ≠ "date_of_joining") : row' k = row k := by
  unfold processField at h
  repeat' split at h
  all_goals
    first
    | (simp only [Except.ok.injEq, Prod.mk.injEq] at h
       obtain ⟨-, rfl⟩ := h
       first
       | rfl
       | simp [updateRow, hk])
    | simp at h

theorem processRules_preserves (sem : PySem) (V : Validator) (today : String)
    (cols dup : List String) (rules : List (String × Rule)) :
    ∀ (row : Row) (errs : List String) (row' : Row),
      processRules sem V today cols dup rules row = .ok (errs, row') →
      ∀ k, k ≠ "date_of_joining" → row' k = row k := by
  induction rules with
  | nil =>
    intro row errs row' h k hk
    simp only [processRules, Except.ok.injEq, Prod.mk.injEq] at h
    obtain ⟨-, rfl⟩ := h
    rfl
  | cons fr rest ih =>
    obtain ⟨f, rule⟩ := fr
    intro row errs row' h k hk
    simp only [processRules] at h
    split at h
    · exact ih row errs row' h k hk
    · cases hf : processField sem V today cols dup f rule row with
      | error e => rw [hf] at h; simp at h
      | ok p =>
        obtain ⟨errs1, row1⟩ := p
        simp only [hf] at h
        cases hr : processRules sem V today cols dup rest row1 with
        | error e => simp only [hr] at h; simp at h
        | ok q =>
          obtain ⟨errs2, row2⟩ := q
          simp only [hr] at h
          simp only [Except.ok.injEq, Prod.mk.injEq] at h
          obtain ⟨-, rfl⟩ := h
          calc row2 k = row1 k := ih row1 errs2 row2 hr k hk
            _ = row k := processField_preserves sem V today cols dup f rule
                row errs1 row1 hf k hk

theorem runRows_get (sem : PySem) (V : Validator) (today : String)
    (cols dup : List String) :
    ∀ (rows : List Row) (outs : List OutRow) (c e : Nat),
      runRows sem V today cols dup rows = .ok (outs, c, e) →
      ∀ k, k < rows.length →
        ∃ (errs : List String) (row' : Row),
          processRules sem V today cols dup V.validation_rules
            (rows.getD k (fun _ => "")) = .ok (errs, row') ∧
          outs.getD k ⟨[], "", []⟩ =
            ⟨cols.map row', (if errs.isEmpty then "CORRECT" else "ERROR"),
              errs⟩ := by
  intro rows
  induction rows with
  | nil =>
    intro outs c e h k hk
    exact absurd hk (by simp)
  | cons row rest ih =>
    intro outs c e h k hk
    simp only [runRows] at h
    cases hp : processRules sem V today cols dup V.validation_rules row with
    | error err => rw [hp] at h; simp at h
    | ok p =>
      obtain ⟨error_list, row1⟩ := p
      rw [hp] at h
      cases hr : runRows sem V today cols dup rest with
      | error err => rw [hr] at h; simp at h
      | ok q =>
        obtain ⟨outs', c', e'⟩ := q
        rw [hr] at h
        simp only [Except.ok.injEq, Prod.mk.injEq] at h
        obtain ⟨rfl, -, -⟩ := h
        cases k with
        | zero => exact ⟨error_list, row1, hp, rfl⟩
        | succ k' =>
          have hk' : k' < rest.length := by simpa using hk
          obtain ⟨errs, row', h1, h2⟩ := ih outs' c' e' hr k' hk'
          exact ⟨errs, row', h1, by simpa using h2⟩

end CSVValidator

namespace CSVValidator

theorem processField_mobile_dup (sem : PySem) (V : Validator) (today : String)
    (cols dup : List String) (rule : Rule) (row : Row)
    (htype : rule.type = some "custom")
    (hdup : dup.contains (pyStrip (row "mobile_number")) = true) :
    processField sem V today cols dup "mobile_number" rule row =
      .ok (["Duplicate mobile_number inside CSV"], row) := by
  unfold processField
  rw [htype, hdup]
  simp

theorem processRules_mobile_mem (sem : PySem) (V : Validator) (today : String)
    (cols dup : List String) (rules : List (String × Rule)) :
    ∀ (row : Row) (errs : List String) (row' : Row),
      processRules sem V today cols dup rules row = .ok (errs, row') →
      ∀ rule : Rule, ("mobile_number", rule) ∈ rules →
        rule.type = some "custom" →
        cols.contains "mobile_number" = true →
        dup.contains (pyStrip (row "mobile_number")) = true →
        "Duplicate mobile_number inside CSV" ∈ errs := by
  induction rules with
  | nil =>
    intro row errs row' h rule hmem
    exact absurd hmem (by simp)
  | cons fr rest ih =>
    obtain ⟨f, r⟩ := fr
    intro row errs row' h rule hmem htype hcols hdup
    simp only [processRules] at h
    rcases List.mem_cons.mp hmem with heq | hmem'
    · injection heq.symm with h1 h2
      subst h1
      subst h2
      simp only [hcols, Bool.not_true, Bool.false_eq_true, if_false] at h
      rw [processField_mobile_dup sem V today cols dup r row htype hdup] at h
      simp only [] at h
      cases hr : processRules sem V today cols dup rest row with
      | error e => simp only [hr] at h; simp at h
      | ok q =>
        obtain ⟨errs2, row2⟩ := q
        simp only [hr] at h
        simp only [Except.ok.injEq, Prod.mk.injEq] at h
        obtain ⟨rfl, -⟩ := h
        simp
    · split at h
      · exact ih row errs row' h rule hmem' htype hcols hdup
      · cases hf : processField sem V today cols dup f r row with
        | error e => simp only [hf] at h; simp at h
        | ok p =>
          obtain ⟨errs1, row1⟩ := p
          simp only [hf] at h
          cases hr : processRules sem V today cols dup rest row1 with
          | error e => simp only [hr] at h; simp at h
          | ok q =>
            obtain ⟨errs2, row2⟩ := q
            simp only [hr] at h
            simp only [Except.ok.injEq, Prod.mk.injEq] at h
            obtain ⟨rfl, -⟩ := h
            have hmob1 : row1 "mobile_number" = row "mobile_number" :=
              processField_preserves sem V today cols dup f r row errs1 row1
                hf "mobile_number" (by decide)
            have hdup1 : dup.contains (pyStrip (row1 "mobile_number")) = true := by
              rw [hmob1]; exact hdup
            exact List.mem_append.mpr
              (Or.inr (ih row1 errs2 row2 hr rule hmem' htype hcols hdup1))

/-- C4 counterexample: with a `custom`-typed `mobile_number` rule and two
records sharing mobile number `"9999999999"`, both records are flagged —
but with the literal string `"Duplicate mobile_number inside CSV"`, not
`"Duplicate mobile_number: 9999999999"`; without a `custom`-typed
`mobile_number` rule no duplicate error is emitted at all; and two records
with empty (blank) mobile values are also flagged, so the non-empty
qualifier fails too. -/
theorem validate_csv_duplicate_message_counterexample :
    (validate_csv ⟨fun _ _ => false, fun _ _ => false, fun _ => true⟩
      ⟨["mobile_number"], [("mobile_number", { type := some "custom" })], [], []⟩
      "01/01/2030" ["mobile_number"]
      [fun _ => "9999999999", fun _ => "9999999999"]
      = .ok (["mobile_number", "validation_status", "validation_errors"],
             [⟨["9999999999"], "ERROR", ["Duplicate mobile_number inside CSV"]⟩,
              ⟨["9999999999"], "ERROR", ["Duplicate mobile_number inside CSV"]⟩],
             ⟨"CORRECT", "Headers match. No issues.", 2, 0, 2⟩)) ∧
    ("Duplicate mobile_number: 9999999999" ∉
      ["Duplicate mobile_number inside CSV"]) ∧
    (validate_csv ⟨fun _ _ => false, fun _ _ => false, fun _ => true⟩
      ⟨["mobile_number"], [("mobile_number", { type := some "custom" })], [], []⟩
      "01/01/2030" ["mobile_number"] [fun _ => "", fun _ => ""]
      = .ok (["mobile_number", "validation_status", "validation_errors"],
             [⟨[""], "ERROR", ["Duplicate mobile_number inside CSV"]⟩,
              ⟨[""], "ERROR", ["Duplicate mobile_number inside CSV"]⟩],
             ⟨"CORRECT", "Headers match. No issues.", 2, 0, 2⟩)) ∧
    (validate_csv ⟨fun _ _ => false, fun _ _ => false, fun _ => true⟩
      ⟨["mobile_number"], [], [], []⟩
      "01/01/2030" ["mobile_number"]
      [fun _ => "9999999999", fun _ => "9999999999"]
      = .ok (["mobile_number", "validation_status", "validation_errors"],
             [⟨["9999999999"], "CORRECT", []⟩, ⟨["9999999999"], "CORRECT", []⟩],
             ⟨"CORRECT", "Headers match. No issues.", 2, 2, 0⟩)) := by
  refine ⟨rfl, by decide, rfl, rfl⟩

/-- C4 amended: whenever the schema carries a `custom`-typed rule for
`mobile_number` and at least two records of the table share the mobile
value `"9999999999"`, every record holding that value is flagged with the
error string `"Duplicate mobile_number inside CSV"` (the duplicate check
fires exactly on trimmed membership in the precomputed duplicate set, with
no non-emptiness qualifier). -/
theorem validate_csv_duplicate_mobile_flags (sem : PySem) (V : Validator)
    (today : String) (cols : List String) (rows : List Row)
    (hdrs : List String) (outs : List OutRow) (s : Summary)
    (h : validate_csv sem V today cols rows = .ok (hdrs, outs, s))
    (rule : Rule) (hrule : ("mobile_number", rule) ∈ V.validation_rules)
    (htype : rule.type = some "custom")
    (hcount : 2 ≤ (rows.map (fun r => r "mobile_number")).count "9999999999") :
    ∀ k, k < rows.length →
      (rows.getD k (fun _ => "")) "mobile_number" = "9999999999" →
      "Duplicate mobile_number inside CSV" ∈
        (outs.getD k ⟨[], "", []⟩).errors := by
  intro k hk hvk
  simp only [validate_csv] at h
  cases hb : (!cols.contains "mobile_number") with
  | true => rw [hb] at h; simp at h
  | false =>
    rw [hb] at h
    simp only [Bool.false_eq_true, if_false] at h
    have hcols : cols.contains "mobile_number" = true := by
      simpa using hb
    cases hr : runRows sem V today cols
        ((rows.map (fun r => r "mobile_number")).filter
          (fun m => decide (1 < (rows.map (fun r => r "mobile_number")).count m)))
        rows with
    | error err => rw [hr] at h; simp at h
    | ok q =>
      obtain ⟨outs', c', e'⟩ := q
      rw [hr] at h
      simp only [Except.ok.injEq, Prod.mk.injEq] at h
      obtain ⟨-, rfl, -⟩ := h
      obtain ⟨errs, row', hp, hout⟩ := runRows_get sem V today cols _ rows
        outs' c' e' hr k hk
      rw [hout]
      have hmem9 : "9999999999" ∈ rows.map (fun r => r "mobile_number") :=
        List.count_pos_iff.mp (lt_of_lt_of_le Nat.zero_lt_two hcount)
      have hdupmem : "9999999999" ∈
          (rows.map (fun r => r "mobile_number")).filter
            (fun m => decide (1 < (rows.map (fun r => r "mobile_number")).count m)) :=
        List.mem_filter.mpr ⟨hmem9, by
          simpa using lt_of_lt_of_le Nat.one_lt_two hcount⟩
      have hdup : ((rows.map (fun r => r "mobile_number")).filter
          (fun m => decide (1 < (rows.map (fun r => r "mobile_number")).count m))).contains
            (pyStrip ((rows.getD k (fun _ => "")) "mobile_number")) = true := by
        rw [hvk]
        show _ = true
        simpa using hdupmem
      exact processRules_mobile_mem sem V today cols _ V.validation_rules
        (rows.getD k (fun _ => "")) errs row' hp rule hrule htype hcols hdup

/-- C4 witness: the two-record duplicate run evaluated concretely, via the
amended theorem at record 0. -/
theorem validate_csv_duplicate_mobile_flags_witness :
    "Duplicate mobile_number inside CSV" ∈
      (([⟨["9999999999"], "ERROR", ["Duplicate mobile_number inside CSV"]⟩,
         ⟨["9999999999"], "ERROR", ["Duplicate mobile_number inside CSV"]⟩] :
        List OutRow).getD 0 ⟨[], "", []⟩).errors :=
  validate_csv_duplicate_mobile_flags ⟨fun _ _ => false, fun _ _ => false, fun _ => true⟩
    ⟨["mobile_number"], [("mobile_number", { type := some "custom" })], [], []⟩
    "01/01/2030" ["mobile_number"]
    [fun _ => "9999999999", fun _ => "9999999999"]
    ["mobile_number", "validation_status", "validation_errors"]
    [⟨["9999999999"], "ERROR", ["Duplicate mobile_number inside CSV"]⟩,
     ⟨["9999999999"], "ERROR", ["Duplicate mobile_number inside CSV"]⟩]
    ⟨"CORRECT", "Headers match. No issues.", 2, 0, 2⟩
    (by rfl) { type := some "custom" } (by simp) (by rfl) (by decide)
    0 (by decide) (by rfl)

end CSVValidator

namespace CSVValidator

end CSVValidator

namespace CSVValidator

/-- C9 counterexample: a record with an unparseable `date_of_joining` is
not preserved in the output — the cell is overwritten with today's date. -/
theorem validate_csv_mutates_doj_counterexample :
    validate_csv ⟨fun _ _ => false, fun _ _ => false, fun _ => true⟩
      ⟨["mobile_number", "date_of_joining"],
        [("date_of_joining", { type := some "date" })], [], []⟩
      "01/01/2030" ["mobile_number", "date_of_joining"]
      [fun c => if c = "date_of_joining" then "bad" else "7"]
      = .ok (["mobile_number", "date_of_joining", "validation_status",
              "validation_errors"],
             [⟨["7", "01/01/2030"], "ERROR",
               ["date_of_joining must be in DD/MM/YYYY format"]⟩],
             ⟨"CORRECT", "Headers match. No issues.", 1, 0, 1⟩) ∧
    (["7", "01/01/2030"] : List String) ≠ ["7", "bad"] :=
  ⟨rfl, by decide⟩

/-- C9 amended: the output of `validate_csv` keeps the original column
order, appends exactly the `validation_status` and `validation_errors`
columns, and preserves every record's value at every column other than
`date_of_joining` (whose value the `date`-rule branch may overwrite with
the corrected date). -/
theorem validate_csv_frame (sem : PySem) (V : Validator)
    (today : String) (cols : List String) (rows : List Row)
    (hdrs : List String) (outs : List OutRow) (s : Summary)
    (h : validate_csv sem V today cols rows = .ok (hdrs, outs, s)) :
    hdrs = cols ++ ["validation_status", "validation_errors"] ∧
    ∀ k, k < rows.length →
      ∃ row' : Row, (outs.getD k ⟨[], "", []⟩).data = cols.map row' ∧
        ∀ c, c ≠ "date_of_joining" →
          row' c = (rows.getD k (fun _ => "")) c := by
  simp only [validate_csv] at h
  cases hb : (!cols.contains "mobile_number") with
  | true => rw [hb] at h; simp at h
  | false =>
    rw [hb] at h
    simp only [Bool.false_eq_true, if_false] at h
    cases hr : runRows sem V today cols
        ((rows.map (fun r => r "mobile_number")).filter
          (fun m => decide (1 < (rows.map (fun r => r "mobile_number")).count m)))
        rows with
    | error err => rw [hr] at h; simp at h
    | ok q =>
      obtain ⟨outs', c', e'⟩ := q
      rw [hr] at h
      simp only [Except.ok.injEq, Prod.mk.injEq] at h
      obtain ⟨rfl, rfl, -⟩ := h
      refine ⟨rfl, ?_⟩
      intro k hk
      obtain ⟨errs, row', hp, hout⟩ := runRows_get sem V today cols _ rows
        outs' c' e' hr k hk
      refine ⟨row', by rw [hout], ?_⟩
      intro c hc
      exact processRules_preserves sem V today cols _ V.validation_rules
        (rows.getD k (fun _ => "")) errs row' hp c hc

/-- C9 witness: a one-record run with no rules, via the amended theorem at
record 0. -/
theorem validate_csv_frame_witness :
    ∃ row' : Row,
      (([⟨["5"], "CORRECT", []⟩] : List OutRow).getD 0 ⟨[], "", []⟩).data
        = ["mobile_number"].map row' ∧
      ∀ c, c ≠ "date_of_joining" →
        row' c = (([fun _ => "5"] : List Row).getD 0 (fun _ => "")) c :=
  (validate_csv_frame ⟨fun _ _ => false, fun _ _ => false, fun _ => true⟩
    ⟨["mobile_number"], [], [], []⟩ "01/01/2030" ["mobile_number"]
    [fun _ => "5"]
    ["mobile_number", "validation_status", "validation_errors"]
    [⟨["5"], "CORRECT", []⟩]
    ⟨"CORRECT", "Headers match. No issues.", 1, 1, 0⟩ (by rfl)).2
    0 (by decide)

theorem processField_V_eq (sem : PySem) (V V' : Validator) (today : String)
    (cols dup : List String) (f : String) (rule : Rule) (row : Row)
    (hroles : V.allowed_roles = V'.allowed_roles)
    (hadm : cols.contains "administrative_area" = false) :
    processField sem V today cols dup f rule row
      = processField sem V' today cols dup f rule row := by
  unfold processField
  rw [hroles, hadm]
  simp only [Bool.false_eq_true, and_false, if_false]

theorem processRules_V_eq (sem : PySem) (V V' : Validator) (today : String)
    (cols dup : List String)
    (hroles : V.allowed_roles = V'.allowed_roles)
    (hadm : cols.contains "administrative_area" = false) :
    ∀ (rules : List (String × Rule)) (row : Row),
      processRules sem V today cols dup rules row
        = processRules sem V' today cols dup rules row := by
  intro rules
  induction rules with
  | nil => intro row; rfl
  | cons fr rest ih =>
    obtain ⟨f, r⟩ := fr
    intro row
    simp only [processRules]
    rw [processField_V_eq sem V V' today cols dup f r row hroles hadm]
    simp only [ih]

theorem runRows_V_eq (sem : PySem) (V V' : Validator) (today : String)
    (cols dup : List String)
    (hroles : V.allowed_roles = V'.allowed_roles)
    (hrules : V.validation_rules = V'.validation_rules)
    (hadm : cols.contains "administrative_area" = false) :
    ∀ rows : List Row,
      runRows sem V today cols dup rows = runRows sem V' today cols dup rows := by
  intro rows
  induction rows with
  | nil => rfl
  | cons row rest ih =>
    simp only [runRows]
    rw [hrules, processRules_V_eq sem V V' today cols dup hroles hadm
      V'.validation_rules row]
    simp only [ih]

theorem processField_boundary_skip (sem : PySem) (V : Validator)
    (today : String) (cols dup : List String) (f : String) (r : Rule)
    (row : Row) (htype : r.type = some "custom")
    (hf : f = "boundary_code" ∨ f = "administrative_area")
    (hadm : cols.contains "administrative_area" = false) :
    processField sem V today cols dup f r row = .ok ([], row) := by
  unfold processField
  rw [htype, hadm]
  rcases hf with rfl | rfl <;> simp

theorem processRules_filter_boundary (sem : PySem) (V : Validator)
    (today : String) (cols dup : List String)
    (hadm : cols.contains "administrative_area" = false) :
    ∀ (rules : List (String × Rule)) (row : Row),
      processRules sem V today cols dup
        (rules.filter (fun p =>
          !((p.2.type == some "custom") &&
            ((p.1 == "boundary_code") || (p.1 == "administrative_area"))))) row
        = processRules sem V today cols dup rules row := by
  intro rules
  induction rules with
  | nil => intro row; rfl
  | cons fr rest ih =>
    obtain ⟨f, r⟩ := fr
    intro row
    by_cases hk : (!((r.type == some "custom") &&
        ((f == "boundary_code") || (f == "administrative_area")))) = true
    · simp only [List.filter_cons, hk, if_true]
      simp only [processRules]
      simp only [ih]
    · have hkk : ((r.type == some "custom") &&
          ((f == "boundary_code") || (f == "administrative_area"))) = true := by
        cases hx : ((r.type == some "custom") &&
            ((f == "boundary_code") || (f == "administrative_area"))) with
        | true => rfl
        | false => exact absurd (by rw [hx]; rfl) hk
      have hpair := (Bool.and_eq_true _ _) ▸ hkk
      have htype : r.type = some "custom" := eq_of_beq hpair.1
      have hf : f = "boundary_code" ∨ f = "administrative_area" := by
        rcases (Bool.or_eq_true _ _) ▸ hpair.2 with h1 | h1
        · exact Or.inl (eq_of_beq h1)
        · exact Or.inr (eq_of_beq h1)
      have hkf : (!((r.type == some "custom") &&
          ((f == "boundary_code") || (f == "administrative_area")))) = false := by
        rw [hkk]; rfl
      rw [List.filter_cons]
      rw [hkf]
      simp only [Bool.false_eq_true, if_false]
      rw [ih]
      simp only [processRules]
      by_cases hc : (!cols.contains f) = true
      · rw [if_pos hc]
      · rw [if_neg hc]
        rw [processField_boundary_skip sem V today cols dup f r row htype hf hadm]
        cases hrest : processRules sem V today cols dup rest row with
        | error e => simp [hrest]
        | ok q =>
          obtain ⟨e', r'⟩ := q
          simp [hrest]

/-- C10: on a table without an `administrative_area` column, `validate_csv`
never consults the boundary mapping (the run's result is independent of
`boundary_dict`), and dropping every `custom`-typed rule for
`boundary_code` / `administrative_area` changes no record's outcome — so
no boundary error is emitted and the omission itself is not reported. -/
theorem validate_csv_no_admin_no_boundary (sem : PySem) (V : Validator)
    (today : String) (cols : List String) (rows : List Row)
    (hadm : cols.contains "administrative_area" = false) :
    (∀ B' : List (String × String),
      validate_csv sem ⟨V.expected_cols, V.validation_rules, V.allowed_roles, B'⟩
        today cols rows = validate_csv sem V today cols rows) ∧
    (∀ (dup : List String) (row : Row),
      processRules sem V today cols dup
        (V.validation_rules.filter (fun p =>
          !((p.2.type == some "custom") &&
            ((p.1 == "boundary_code") || (p.1 == "administrative_area"))))) row
        = processRules sem V today cols dup V.validation_rules row) := by
  constructor
  · intro B'
    simp only [validate_csv]
    rw [runRows_V_eq sem ⟨V.expected_cols, V.validation_rules, V.allowed_roles, B'⟩
      V today cols _ rfl rfl hadm rows]
  · intro dup row
    exact processRules_filter_boundary sem V today cols dup hadm
      V.validation_rules row

/-- C10 witness: a concrete table without `administrative_area`, with a
boundary rule present, evaluated through the theorem. -/
theorem validate_csv_no_admin_no_boundary_witness :
    validate_csv ⟨fun _ _ => false, fun _ _ => false, fun _ => true⟩
      ⟨["mobile_number", "boundary_code"],
        [("boundary_code", { type := some "custom" })], [],
        [("1", "North")]⟩
      "01/01/2030" ["mobile_number", "boundary_code"]
      [fun _ => "9"]
      = validate_csv ⟨fun _ _ => false, fun _ _ => false, fun _ => true⟩
        ⟨["mobile_number", "boundary_code"],
          [("boundary_code", { type := some "custom" })], [], []⟩
        "01/01/2030" ["mobile_number", "boundary_code"] [fun _ => "9"] :=
  (validate_csv_no_admin_no_boundary ⟨fun _ _ => false, fun _ _ => false, fun _ => true⟩
    ⟨["mobile_number", "boundary_code"],
      [("boundary_code", { type := some "custom" })], [], []⟩
    "01/01/2030" ["mobile_number", "boundary_code"] [fun _ => "9"]
    (by rfl)).1 [("1", "North")]

end CSVValidator
